import Mathlib

/-!
Formal model of the BMD WP3 / T3.3 occurrence-data pipeline.

The definitions below are a shallow embedding of the Python scripts
`src/core/01_download_gbif.py`, `src/core/02_filter_gbif_dataset.py`,
`src/subprojects/natura2k/03_spatial_join_gbif_natura.py`,
`src/subprojects/natura2k/04_basic_metrics_gbif_natura.py` and
`src/subprojects/natura2k/05_advanced_metrics_gbif_natura.py`.
Tables are lists of records, nullable cells are an explicit sum type, and
pandas null-skipping aggregations are modelled by functions that skip the
null constructor.  All definitions are executable.
-/

/-- Model of one pandas cell: either null (NaN/None), a numeric value, or a
non-numeric string.  Numeric strings that pandas would parse are represented
directly by the `num` constructor, so `str` stands for a value that
`pd.to_numeric(..., errors := coerce)` cannot parse. -/
inductive Cell where
  | null : Cell
  | num : ℚ → Cell
  | str : String → Cell
deriving DecidableEq, Repr

/-- Model of `pandas.isna` on one cell. -/
def Cell.isna : Cell → Bool
  | Cell.null => true
  | _ => false

/-- Model of `pd.to_numeric(value, errors="coerce")` on one cell: numbers are
kept, nulls stay null, unparsable values become null. -/
def Cell.toNumeric : Cell → Cell
  | Cell.num q => Cell.num q
  | _ => Cell.null

/-- Numeric payload of a cell, if any. -/
def Cell.asNum : Cell → Option ℚ
  | Cell.num q => some q
  | _ => none

/-- Model of a pandas comparison `cell >= bound`: true only when the cell holds
a number at least the bound (NaN comparisons are false in pandas). -/
def cellGe (c : Cell) (b : ℚ) : Bool :=
  match c with
  | Cell.num q => decide (b ≤ q)
  | _ => false

/-- Model of a pandas comparison `cell <= bound` (NaN comparisons are false). -/
def cellLe (c : Cell) (b : ℚ) : Bool :=
  match c with
  | Cell.num q => decide (q ≤ b)
  | _ => false

/-- One raw GBIF occurrence record, restricted to `COLUMNS_KEEP` of
`02_filter_gbif_dataset.py`. -/
structure OccurrenceRow where
  taxonKey : Cell
  scientificName : Cell
  decimalLatitude : Cell
  decimalLongitude : Cell
  countryCode : Cell
  basisOfRecord : Cell
  coordinateUncertaintyInMeters : Cell
  year : Cell
  month : Cell
  eventDate : Cell
deriving DecidableEq, Repr

/-- `ALLOWED_BASIS` from `02_filter_gbif_dataset.py`. -/
def ALLOWED_BASIS : List String :=
  ["HUMAN_OBSERVATION", "MACHINE_OBSERVATION", "PRESERVED_SPECIMEN"]

/-- Optional spatial and temporal filter configuration of
`02_filter_gbif_dataset.py` (`None` means the bound is not applied). -/
structure FilterConfig where
  LAT_MIN : Option ℚ
  LAT_MAX : Option ℚ
  LON_MIN : Option ℚ
  LON_MAX : Option ℚ
  YEAR_MIN : Option ℚ
  YEAR_MAX : Option ℚ
deriving DecidableEq, Repr

/-- The default configuration of the script: every optional bound is `None`. -/
def defaultConfig : FilterConfig :=
  ⟨none, none, none, none, none, none⟩

/-- Step 1 of the per-chunk pipeline: `chunk.dropna(subset =
[scientificName, taxonKey, decimalLatitude, decimalLongitude])`. -/
def dropnaCritical (rows : List OccurrenceRow) : List OccurrenceRow :=
  rows.filter fun r =>
    !r.scientificName.isna && !r.taxonKey.isna &&
    !r.decimalLatitude.isna && !r.decimalLongitude.isna

/-- Step 2: coerce latitude, longitude, coordinate uncertainty and year to
numeric with `pd.to_numeric(..., errors="coerce")`. -/
def coerceNumericColumns (r : OccurrenceRow) : OccurrenceRow :=
  { r with
    decimalLatitude := r.decimalLatitude.toNumeric
    decimalLongitude := r.decimalLongitude.toNumeric
    coordinateUncertaintyInMeters := r.coordinateUncertaintyInMeters.toNumeric
    year := r.year.toNumeric }

/-- Step 3: if year filtering is active, `chunk.dropna(subset=["year"])`. -/
def dropnaYearIfConfigured (cfg : FilterConfig) (rows : List OccurrenceRow) :
    List OccurrenceRow :=
  if cfg.YEAR_MIN.isSome || cfg.YEAR_MAX.isSome then
    rows.filter fun r => !r.year.isna
  else rows

/-- Mandatory mask conjunct `chunk["basisOfRecord"].isin(ALLOWED_BASIS)`
(a null basis is not a member of the list). -/
def basisOfRecordMask (r : OccurrenceRow) : Bool :=
  match r.basisOfRecord with
  | Cell.str s => ALLOWED_BASIS.contains s
  | _ => false

/-- Mandatory mask conjunct
`chunk["coordinateUncertaintyInMeters"].fillna(0) < 1000`. -/
def uncertaintyMask (r : OccurrenceRow) : Bool :=
  decide ((r.coordinateUncertaintyInMeters.asNum.getD 0) < 1000)

/-- Optional spatial mask block: only entered when at least one of the four
bounds is configured, and then each configured bound is ANDed in
independently, exactly as in the source. -/
def spatialMask (cfg : FilterConfig) (r : OccurrenceRow) : Bool :=
  if cfg.LAT_MIN.isSome || cfg.LAT_MAX.isSome ||
      cfg.LON_MIN.isSome || cfg.LON_MAX.isSome then
    (match cfg.LAT_MIN with
     | some b => cellGe r.decimalLatitude b
     | none => true) &&
    (match cfg.LAT_MAX with
     | some b => cellLe r.decimalLatitude b
     | none => true) &&
    (match cfg.LON_MIN with
     | some b => cellGe r.decimalLongitude b
     | none => true) &&
    (match cfg.LON_MAX with
     | some b => cellLe r.decimalLongitude b
     | none => true)
  else true

/-- Optional temporal mask: each configured year bound is ANDed in. -/
def temporalMask (cfg : FilterConfig) (r : OccurrenceRow) : Bool :=
  (match cfg.YEAR_MIN with
   | some b => cellGe r.year b
   | none => true) &&
  (match cfg.YEAR_MAX with
   | some b => cellLe r.year b
   | none => true)

/-- The full boolean row mask of step 4: starts true-for-all and ANDs in the
mandatory and optional conjuncts. -/
def rowMask (cfg : FilterConfig) (r : OccurrenceRow) : Bool :=
  basisOfRecordMask r && uncertaintyMask r && spatialMask cfg r &&
    temporalMask cfg r

/-- `filtered_chunk`: the whole per-chunk pipeline of
`02_filter_gbif_dataset.py` (dropna of critical fields, numeric coercion,
conditional year dropna, then the boolean mask). -/
def filterChunk (cfg : FilterConfig) (rows : List OccurrenceRow) :
    List OccurrenceRow :=
  (dropnaYearIfConfigured cfg ((dropnaCritical rows).map coerceNumericColumns)).filter
    (rowMask cfg)

/-- Spec-level predicate: a configured lower bound is satisfied (an unset
bound imposes no restriction). -/
def satisfiesLowerBound (b : Option ℚ) (c : Cell) : Bool :=
  match b with
  | none => true
  | some q => cellGe c q

/-- Spec-level predicate: a configured upper bound is satisfied (an unset
bound imposes no restriction). -/
def satisfiesUpperBound (b : Option ℚ) (c : Cell) : Bool :=
  match b with
  | none => true
  | some q => cellLe c q

/-- Non-null critical fields predicate of step 1, on one raw row. -/
def criticalFieldsPresent (r : OccurrenceRow) : Bool :=
  !r.scientificName.isna && !r.taxonKey.isna &&
    !r.decimalLatitude.isna && !r.decimalLongitude.isna

/-- Survival of the conditional year dropna, on one (coerced) row. -/
def yearKeep (cfg : FilterConfig) (r : OccurrenceRow) : Bool :=
  if cfg.YEAR_MIN.isSome || cfg.YEAR_MAX.isSome then !r.year.isna else true

/-- One optional lower bound is at least as tight in the first configuration
as in the second: a configured bound is never dropped, and a configured value
may only grow. -/
def tighterLower (b' b : Option ℚ) : Bool :=
  match b', b with
  | _, none => true
  | some q', some q => decide (q ≤ q')
  | none, some _ => false

/-- One optional upper bound is at least as tight in the first configuration
as in the second. -/
def tighterUpper (b' b : Option ℚ) : Bool :=
  match b', b with
  | _, none => true
  | some q', some q => decide (q' ≤ q)
  | none, some _ => false

/-- The first configuration tightens the second: every configured bound is
kept and possibly strengthened, and new bounds may be added. -/
def tightens (cfg' cfg : FilterConfig) : Bool :=
  tighterLower cfg'.LAT_MIN cfg.LAT_MIN &&
  tighterUpper cfg'.LAT_MAX cfg.LAT_MAX &&
  tighterLower cfg'.LON_MIN cfg.LON_MIN &&
  tighterUpper cfg'.LON_MAX cfg.LON_MAX &&
  tighterLower cfg'.YEAR_MIN cfg.YEAR_MIN &&
  tighterUpper cfg'.YEAR_MAX cfg.YEAR_MAX

/-- Counter and accumulator state of the chunk loop of
`02_filter_gbif_dataset.py`.  A Python `Counter` repeatedly updated with
streams of values is determined by the multiset of all values ever passed to
`update`: the sum of its values is the length of that stream and its key set
is the set of distinct stream elements.  Each counter is therefore modelled
by the accumulated stream of update values. -/
structure CounterState where
  species_counter : List Cell
  taxon_counter : List Cell
  country_counter : List Cell
  basis_counter : List Cell
  year_counter : List Cell
  filtered_records : ℕ
deriving DecidableEq, Repr

/-- Initial counter state of the script. -/
def initialCounters : CounterState := ⟨[], [], [], [], [], 0⟩

/-- Step 6 of the chunk loop: update the five counters from the surviving
rows only (`countryCode`, `basisOfRecord` and `year` are passed through
`.dropna()` first), and step 7's `filtered_records += len(filtered_chunk)`,
which the source applies outside the non-empty guard. -/
def updateCounters (st : CounterState) (fc : List OccurrenceRow) : CounterState :=
  if fc.isEmpty then
    { st with filtered_records := st.filtered_records + fc.length }
  else
    { species_counter := st.species_counter ++ fc.map (fun r => r.scientificName)
      taxon_counter := st.taxon_counter ++ fc.map (fun r => r.taxonKey)
      country_counter := st.country_counter ++
        (fc.map (fun r => r.countryCode)).filter (fun c => !c.isna)
      basis_counter := st.basis_counter ++
        (fc.map (fun r => r.basisOfRecord)).filter (fun c => !c.isna)
      year_counter := st.year_counter ++
        (fc.map (fun r => r.year)).filter (fun c => !c.isna)
      filtered_records := st.filtered_records + fc.length }

/-- One iteration of the chunk loop: filter the chunk, update the counters,
and append the filtered chunk to `filtered_data` (the append is
unconditional in the source, line 246, even for an empty filtered chunk). -/
def stageStep (cfg : FilterConfig)
    (acc : CounterState × List (List OccurrenceRow))
    (chunk : List OccurrenceRow) :
    CounterState × List (List OccurrenceRow) :=
  (updateCounters acc.1 (filterChunk cfg chunk), acc.2 ++ [filterChunk cfg chunk])

/-- The whole chunk loop over the input stream. -/
def runFilterStage (cfg : FilterConfig) (chunks : List (List OccurrenceRow)) :
    CounterState × List (List OccurrenceRow) :=
  chunks.foldl (stageStep cfg) (initialCounters, [])

/-- The `filtered_data` list after the loop. -/
def filtered_data (cfg : FilterConfig) (chunks : List (List OccurrenceRow)) :
    List (List OccurrenceRow) :=
  (runFilterStage cfg chunks).2

/-- The concatenated filtered table (`pd.concat(filtered_data)`). -/
def filteredTable (cfg : FilterConfig) (chunks : List (List OccurrenceRow)) :
    List OccurrenceRow :=
  (filtered_data cfg chunks).flatten

/-- Truthiness of `if filtered_data:` at lines 256-258: the output CSV is
written exactly when the `filtered_data` list is non-empty. -/
def writes_output_file (cfg : FilterConfig)
    (chunks : List (List OccurrenceRow)) : Bool :=
  !(filtered_data cfg chunks).isEmpty

/-- The `else` branch at lines 259-260: the `No data after filtering.`
diagnostic is printed exactly when the `filtered_data` list is empty. -/
def prints_no_data_message (cfg : FilterConfig)
    (chunks : List (List OccurrenceRow)) : Bool :=
  (filtered_data cfg chunks).isEmpty

/-- Invariant relating the counter state to the filtered table accumulated so
far; used to verify the counter-consistency property. -/
def countersInv (st : CounterState) (tbl : List OccurrenceRow) : Prop :=
  st.basis_counter.length = st.filtered_records ∧
  st.filtered_records = tbl.length ∧
  st.species_counter ⊆ tbl.map (fun r => r.scientificName) ∧
  st.taxon_counter ⊆ tbl.map (fun r => r.taxonKey) ∧
  st.country_counter ⊆ tbl.map (fun r => r.countryCode) ∧
  st.basis_counter ⊆ tbl.map (fun r => r.basisOfRecord) ∧
  st.year_counter ⊆ tbl.map (fun r => r.year)

/-- One prepared Natura 2000 site record, reduced to the `keep_cols`
attributes of `03_spatial_join_gbif_natura.py`; its polygon geometry is
carried by the containment predicate passed to the join. -/
structure NaturaSite where
  SITECODE : String
  SITENAME : String
  COUNTRY : String
  SITETYPE : String
deriving DecidableEq, Repr

/-- Model of `gpd.sjoin(gdf_points, gdf_natura_join, how="left",
predicate="within")` in `03_spatial_join_gbif_natura.py`: each occurrence
point is paired with every site polygon that strictly contains it (`within`);
a point contained in no polygon is kept once, paired with `none` (all site
attributes null).  The geometric `within` test itself is external library
code and is a parameter. -/
def sjoin_left (within : OccurrenceRow → NaturaSite → Bool)
    (gdf_points : List OccurrenceRow) (gdf_natura_join : List NaturaSite) :
    List (OccurrenceRow × Option NaturaSite) :=
  gdf_points.flatMap fun p =>
    if (gdf_natura_join.filter (fun s => within p s)).isEmpty then [(p, none)]
    else (gdf_natura_join.filter (fun s => within p s)).map fun t => (p, some t)

/-- One record of the joined GBIF-Natura table read by
`04_basic_metrics_gbif_natura.py` and `05_advanced_metrics_gbif_natura.py`,
restricted to the columns those scripts aggregate.  Site attributes are null
for occurrences outside every site; per the data model, `taxonKey` and
`year` are nullable integers. -/
structure JoinedOccurrence where
  taxonKey : Option ℤ
  scientificName : Option String
  year : Option ℤ
  SITECODE : Option String
  SITENAME : Option String
  MS : Option String
  SITETYPE : Option String
deriving DecidableEq, Repr

/-- `df_in_site = df[df[SITE_CODE_COL].notna()]`: the restriction of both
metrics scripts to occurrences carrying a Natura site code. -/
def df_in_site (df : List JoinedOccurrence) : List JoinedOccurrence :=
  df.filter fun r => r.SITECODE.isSome

/-- One group of `df_in_site.groupby(TAXON_KEY_COL, dropna=True)`: the rows
whose (non-null) taxon key equals `k`. -/
def taxonGroup (df : List JoinedOccurrence) (k : ℤ) : List JoinedOccurrence :=
  (df_in_site df).filter fun r => decide (r.taxonKey = some k)

/-- One group of `df_in_site.groupby(SITE_CODE_COL, dropna=True)`: the rows
whose (non-null) site code equals `s`. -/
def siteGroup (df : List JoinedOccurrence) (s : String) : List JoinedOccurrence :=
  (df_in_site df).filter fun r => decide (r.SITECODE = some s)

/-- The non-null year values of a group (pandas aggregations skip nulls). -/
def groupYears (g : List JoinedOccurrence) : List ℤ :=
  g.filterMap fun r => r.year

/-- Model of a null-skipping pandas series `min`: `none` on an all-null
column. -/
def series_min (l : List ℤ) : Option ℤ :=
  l.foldr (fun x acc =>
    match acc with
    | none => some x
    | some m => some (min x m)) none

/-- Model of a null-skipping pandas series `max`: `none` on an all-null
column. -/
def series_max (l : List ℤ) : Option ℤ :=
  l.foldr (fun x acc =>
    match acc with
    | none => some x
    | some m => some (max x m)) none

/-- Aggregate `year_min = (YEAR_COL, "min")` of one group. -/
def year_min_agg (g : List JoinedOccurrence) : Option ℤ :=
  series_min (groupYears g)

/-- Aggregate `year_max = (YEAR_COL, "max")` of one group. -/
def year_max_agg (g : List JoinedOccurrence) : Option ℤ :=
  series_max (groupYears g)

/-- Aggregate `n_years = (YEAR_COL, "nunique")` of one group (nunique skips
nulls and counts distinct values). -/
def n_years (g : List JoinedOccurrence) : ℕ :=
  (groupYears g).dedup.length

/-- `temporal_span = year_max - year_min` of the species metrics (null when
the group has no year data). -/
def temporal_span (g : List JoinedOccurrence) : Option ℤ :=
  match year_max_agg g, year_min_agg g with
  | some M, some m => some (M - m)
  | _, _ => none

/-- `span = temporal_span.replace(0, pd.NA)` at line 256 of
`05_advanced_metrics_gbif_natura.py`. -/
def span_replaced (g : List JoinedOccurrence) : Option ℤ :=
  if temporal_span g = some 0 then none else temporal_span g

/-- The general division `n_years / (span + 1)` at lines 257-259, computed
against the NA-replaced span, with pandas NA propagation. -/
def temporal_completeness_general (g : List JoinedOccurrence) : Option ℚ :=
  (span_replaced g).map fun s => (n_years g : ℚ) / ((s : ℚ) + 1)

/-- `temporal_completeness` after the forced assignment at lines 261-263:
rows with `temporal_span == 0` are set to exactly 1.0. -/
def temporal_completeness (g : List JoinedOccurrence) : Option ℚ :=
  if temporal_span g = some 0 then some 1 else temporal_completeness_general g

/-- `expected_years = year_max - year_min + 1` of the temporal-gap output. -/
def expected_years (g : List JoinedOccurrence) : Option ℤ :=
  match year_max_agg g, year_min_agg g with
  | some M, some m => some (M - m + 1)
  | _, _ => none

/-- `missing_years = expected_years - n_years`. -/
def missing_years (g : List JoinedOccurrence) : Option ℤ :=
  match expected_years g with
  | some e => some (e - (n_years g : ℤ))
  | none => none

/-- `gap_fraction = (missing_years / expected_years).clip(lower=0, upper=1)`. -/
def gap_fraction (g : List JoinedOccurrence) : Option ℚ :=
  match missing_years g, expected_years g with
  | some mi, some e => some (min 1 (max 0 ((mi : ℚ) / (e : ℚ))))
  | _, _ => none

/-- Control-flow model of `04_basic_metrics_gbif_natura.py`: exit status and
the list of metric tables written.  `raise SystemExit(0)` on an empty
`df_in_site` is exit status 0 with no outputs; otherwise the script runs to
the end (status 0) writing the site-level and MS-level tables (all expected
columns exist in this embedding). -/
def basic_metrics_run (df : List JoinedOccurrence) : ℕ × List String :=
  if (df_in_site df).isEmpty then (0, [])
  else (0, ["sites_metrics", "ms_metrics"])

/-- Control-flow model of `05_advanced_metrics_gbif_natura.py`: exit status
and the list of metric tables written, with the same empty-input early exit
`raise SystemExit(0)`. -/
def advanced_metrics_run (df : List JoinedOccurrence) : ℕ × List String :=
  if (df_in_site df).isEmpty then (0, [])
  else (0, ["species_metrics", "sitetype_metrics", "sites_temporal_gaps"])

/-- One row of the species list read by `01_download_gbif.py`. -/
structure SpeciesListRow where
  usageKey : Cell
  acceptedUsageKey : Cell
deriving DecidableEq, Repr

/-- `key_to_use = acceptedUsageKey.fillna(usageKey)`: the preferred key when
present, the fallback otherwise. -/
def key_to_use (r : SpeciesListRow) : Cell :=
  if r.acceptedUsageKey.isna then r.usageKey else r.acceptedUsageKey

/-- Python `int()` conversion of a numeric value: truncation toward zero, as
`astype(int)` performs on floats. -/
def int_of_rat_trunc (q : ℚ) : ℤ :=
  Int.tdiv q.num (q.den : ℤ)

/-- Model of `pandas.unique`: distinct values in order of first occurrence. -/
def uniqueInOrder (l : List ℤ) : List ℤ :=
  l.foldl (fun acc x => if x ∈ acc then acc else acc ++ [x]) []

/-- `usage_keys` of `01_download_gbif.py`: rows whose `key_to_use` survives
`pd.to_numeric(..., errors="coerce").notnull()`, cast with `astype(int)`,
then `unique().tolist()`. -/
def usage_keys (rows : List SpeciesListRow) : List ℤ :=
  uniqueInOrder ((rows.map key_to_use).filterMap fun c =>
    match c.toNumeric with
    | Cell.num q => some (int_of_rat_trunc q)
    | _ => none)

/-- Concrete batch row A of the claimed scenario: null coordinate
uncertainty, allowed basis of record. -/
def rowA : OccurrenceRow :=
  { taxonKey := Cell.num 1
    scientificName := Cell.str "Alpha alpha"
    decimalLatitude := Cell.num 40
    decimalLongitude := Cell.num 20
    countryCode := Cell.str "GR"
    basisOfRecord := Cell.str "HUMAN_OBSERVATION"
    coordinateUncertaintyInMeters := Cell.null
    year := Cell.num 2000
    month := Cell.num 5
    eventDate := Cell.str "2000-05-01" }

/-- Concrete batch row B: coordinate uncertainty 1500 m. -/
def rowB : OccurrenceRow :=
  { rowA with
    taxonKey := Cell.num 2
    scientificName := Cell.str "Beta beta"
    coordinateUncertaintyInMeters := Cell.num 1500 }

/-- Concrete batch row C: a disallowed basis of record, all other fields
valid. -/
def rowC : OccurrenceRow :=
  { rowA with
    taxonKey := Cell.num 3
    scientificName := Cell.str "Gamma gamma"
    basisOfRecord := Cell.str "FOSSIL_SPECIMEN" }

/-- A concrete point with latitude 10, outside the demo containment region. -/
def rowOutside : OccurrenceRow :=
  { rowA with decimalLatitude := Cell.num 10 }

/-- A concrete loose configuration for the monotonicity witness. -/
def cfgWide : FilterConfig :=
  ⟨some 30, some 50, none, none, none, none⟩

/-- A concrete configuration tightening `cfgWide`. -/
def cfgNarrow : FilterConfig :=
  ⟨some 35, some 45, none, none, some 1990, none⟩

/-- Concrete Natura site X for the join witness. -/
def siteX : NaturaSite := ⟨"GR1", "Site X", "GR", "A"⟩

/-- Concrete Natura site Y for the join witness. -/
def siteY : NaturaSite := ⟨"GR2", "Site Y", "GR", "B"⟩

/-- A concrete containment test for the join witness: points with latitude at
least 35 lie inside every site, others in none. -/
def withinDemo (r : OccurrenceRow) (_ : NaturaSite) : Bool :=
  cellGe r.decimalLatitude 35

/-- Concrete joined occurrences for the metrics witnesses. -/
def jrowA : JoinedOccurrence :=
  ⟨some 7, some "Alpha alpha", some 2000, some "GR1", some "Site X", some "GR", some "A"⟩

/-- Second occurrence of taxon 7, same single year. -/
def jrowB : JoinedOccurrence :=
  ⟨some 7, some "Alpha alpha", some 2000, some "GR2", some "Site Y", some "GR", some "B"⟩

/-- Occurrence of taxon 8 in 2001 at site GR1. -/
def jrowC : JoinedOccurrence :=
  ⟨some 8, some "Beta beta", some 2001, some "GR1", some "Site X", some "GR", some "A"⟩

/-- Occurrence of taxon 8 in 2003 at site GR1. -/
def jrowD : JoinedOccurrence :=
  ⟨some 8, some "Beta beta", some 2003, some "GR1", some "Site X", some "GR", some "A"⟩

/-- An occurrence matched by no Natura site (all site attributes null). -/
def jrowNone : JoinedOccurrence :=
  ⟨some 9, some "Gamma gamma", some 1999, none, none, none, none⟩

lemma spatialMask_eq (cfg : FilterConfig) (r : OccurrenceRow) :
    spatialMask cfg r =
      (satisfiesLowerBound cfg.LAT_MIN r.decimalLatitude &&
       satisfiesUpperBound cfg.LAT_MAX r.decimalLatitude &&
       satisfiesLowerBound cfg.LON_MIN r.decimalLongitude &&
       satisfiesUpperBound cfg.LON_MAX r.decimalLongitude) := by
  rcases cfg with ⟨lmin, lmax, omin, omax, ymin, ymax⟩
  cases lmin <;> cases lmax <;> cases omin <;> cases omax <;>
    simp [spatialMask, satisfiesLowerBound, satisfiesUpperBound]

lemma temporalMask_eq (cfg : FilterConfig) (r : OccurrenceRow) :
    temporalMask cfg r =
      (satisfiesLowerBound cfg.YEAR_MIN r.year &&
       satisfiesUpperBound cfg.YEAR_MAX r.year) := by
  rcases cfg with ⟨lmin, lmax, omin, omax, ymin, ymax⟩
  cases ymin <;> cases ymax <;>
    simp [temporalMask, satisfiesLowerBound, satisfiesUpperBound]

lemma rowMask_eq (cfg : FilterConfig) (r : OccurrenceRow) :
    rowMask cfg r =
      (basisOfRecordMask r && uncertaintyMask r &&
       (satisfiesLowerBound cfg.LAT_MIN r.decimalLatitude &&
        satisfiesUpperBound cfg.LAT_MAX r.decimalLatitude &&
        satisfiesLowerBound cfg.LON_MIN r.decimalLongitude &&
        satisfiesUpperBound cfg.LON_MAX r.decimalLongitude) &&
       (satisfiesLowerBound cfg.YEAR_MIN r.year &&
        satisfiesUpperBound cfg.YEAR_MAX r.year)) := by
  rw [rowMask, spatialMask_eq, temporalMask_eq]

lemma filterChunk_eq_filter (cfg : FilterConfig) (rows : List OccurrenceRow) :
    filterChunk cfg rows =
      ((dropnaCritical rows).map coerceNumericColumns).filter
        (fun r => yearKeep cfg r && rowMask cfg r) := by
  unfold filterChunk dropnaYearIfConfigured yearKeep
  cases h : (cfg.YEAR_MIN.isSome || cfg.YEAR_MAX.isSome) with
  | false =>
    simp only [Bool.false_eq_true, if_false]
    exact (List.filter_congr fun r _ => by rw [Bool.true_and]).symm
  | true =>
    simp only [if_true]
    rw [List.filter_filter]
    exact List.filter_congr fun r _ => by rw [Bool.and_comm]

lemma mem_filterChunk_iff (cfg : FilterConfig) (rows : List OccurrenceRow)
    (r : OccurrenceRow) :
    r ∈ filterChunk cfg rows ↔
      ∃ r0, r0 ∈ rows ∧ coerceNumericColumns r0 = r ∧
        criticalFieldsPresent r0 = true ∧ yearKeep cfg r = true ∧
        rowMask cfg r = true := by
  rw [filterChunk_eq_filter]
  simp only [List.mem_filter, List.mem_map, dropnaCritical, Bool.and_eq_true,
    criticalFieldsPresent]
  constructor
  · rintro ⟨⟨r0, hr0, rfl⟩, hy, hm⟩
    exact ⟨r0, hr0.1, rfl, hr0.2, hy, hm⟩
  · rintro ⟨r0, hr0, rfl, hcrit, hy, hm⟩
    exact ⟨⟨r0, ⟨hr0, hcrit⟩, rfl⟩, hy, hm⟩

lemma yearKeep_iff (cfg : FilterConfig) (r : OccurrenceRow) :
    yearKeep cfg r = true ↔
      ((cfg.YEAR_MIN.isSome || cfg.YEAR_MAX.isSome) = true →
        r.year.isna = false) := by
  unfold yearKeep
  cases h : (cfg.YEAR_MIN.isSome || cfg.YEAR_MAX.isSome) <;>
    simp [Bool.not_eq_true']

lemma satisfiesLowerBound_mono {b' b : Option ℚ} {c : Cell}
    (ht : tighterLower b' b = true) (hs : satisfiesLowerBound b' c = true) :
    satisfiesLowerBound b c = true := by
  cases b with
  | none => rfl
  | some q =>
    cases b' with
    | none => simp [tighterLower] at ht
    | some q' =>
      simp only [tighterLower, decide_eq_true_eq] at ht
      cases c <;> simp_all [satisfiesLowerBound, cellGe]
      linarith

lemma satisfiesUpperBound_mono {b' b : Option ℚ} {c : Cell}
    (ht : tighterUpper b' b = true) (hs : satisfiesUpperBound b' c = true) :
    satisfiesUpperBound b c = true := by
  cases b with
  | none => rfl
  | some q =>
    cases b' with
    | none => simp [tighterUpper] at ht
    | some q' =>
      simp only [tighterUpper, decide_eq_true_eq] at ht
      cases c <;> simp_all [satisfiesUpperBound, cellLe]
      linarith

lemma tighterLower_isSome {b' b : Option ℚ} (ht : tighterLower b' b = true)
    (h : b.isSome = true) : b'.isSome = true := by
  cases b <;> cases b' <;> simp_all [tighterLower]

lemma tighterUpper_isSome {b' b : Option ℚ} (ht : tighterUpper b' b = true)
    (h : b.isSome = true) : b'.isSome = true := by
  cases b <;> cases b' <;> simp_all [tighterUpper]

lemma yearKeep_mono {cfg' cfg : FilterConfig} {r : OccurrenceRow}
    (h1 : tighterLower cfg'.YEAR_MIN cfg.YEAR_MIN = true)
    (h2 : tighterUpper cfg'.YEAR_MAX cfg.YEAR_MAX = true)
    (hk : yearKeep cfg' r = true) : yearKeep cfg r = true := by
  rw [yearKeep_iff] at hk ⊢
  intro hc
  apply hk
  rcases Bool.or_eq_true_iff.mp hc with h | h
  · exact Bool.or_eq_true_iff.mpr (Or.inl (tighterLower_isSome h1 h))
  · exact Bool.or_eq_true_iff.mpr (Or.inr (tighterUpper_isSome h2 h))

lemma maskPred_mono (cfg' cfg : FilterConfig) (r : OccurrenceRow)
    (ht : tightens cfg' cfg = true) :
    (yearKeep cfg' r && rowMask cfg' r) = true →
      (yearKeep cfg r && rowMask cfg r) = true := by
  simp only [tightens, Bool.and_eq_true] at ht
  obtain ⟨⟨⟨⟨⟨t1, t2⟩, t3⟩, t4⟩, t5⟩, t6⟩ := ht
  intro h
  rw [Bool.and_eq_true] at h
  obtain ⟨hy, hm⟩ := h
  rw [rowMask_eq] at hm
  simp only [Bool.and_eq_true] at hm
  obtain ⟨⟨⟨hbas, hunc⟩, ⟨⟨⟨hs1, hs2⟩, hs3⟩, hs4⟩⟩, ht1, ht2⟩ := hm
  rw [Bool.and_eq_true, rowMask_eq]
  simp only [Bool.and_eq_true]
  exact ⟨yearKeep_mono t5 t6 hy,
    ⟨⟨hbas, hunc⟩,
      ⟨⟨⟨satisfiesLowerBound_mono t1 hs1, satisfiesUpperBound_mono t2 hs2⟩,
        satisfiesLowerBound_mono t3 hs3⟩, satisfiesUpperBound_mono t4 hs4⟩⟩,
    satisfiesLowerBound_mono t5 ht1, satisfiesUpperBound_mono t6 ht2⟩

lemma surviving_row_iff (cfg : FilterConfig) (r : OccurrenceRow) :
    (yearKeep cfg r = true ∧ rowMask cfg r = true) ↔
      (basisOfRecordMask r = true ∧ uncertaintyMask r = true ∧
       ((cfg.YEAR_MIN.isSome || cfg.YEAR_MAX.isSome) = true →
         r.year.isna = false) ∧
       satisfiesLowerBound cfg.LAT_MIN r.decimalLatitude = true ∧
       satisfiesUpperBound cfg.LAT_MAX r.decimalLatitude = true ∧
       satisfiesLowerBound cfg.LON_MIN r.decimalLongitude = true ∧
       satisfiesUpperBound cfg.LON_MAX r.decimalLongitude = true ∧
       satisfiesLowerBound cfg.YEAR_MIN r.year = true ∧
       satisfiesUpperBound cfg.YEAR_MAX r.year = true) := by
  rw [yearKeep_iff, rowMask_eq]
  simp only [Bool.and_eq_true]
  tauto

/-- C1: a row appears in the filtered output of a batch iff it independently
satisfies every active mandatory predicate (non-null critical fields, allowed
basis of record, null-as-zero coordinate uncertainty strictly below 1000 m)
and every configured optional spatial/temporal bound; consequently filtering
is monotonic: tightening any configured bound never increases the output row
count. -/
theorem quality_filter_iff_and_monotone
    (cfg cfg' : FilterConfig) (rows : List OccurrenceRow)
    (h : tightens cfg' cfg = true) :
    (∀ r, r ∈ filterChunk cfg rows ↔
      ∃ r0, r0 ∈ rows ∧ coerceNumericColumns r0 = r ∧
        criticalFieldsPresent r0 = true ∧
        basisOfRecordMask r = true ∧
        uncertaintyMask r = true ∧
        ((cfg.YEAR_MIN.isSome || cfg.YEAR_MAX.isSome) = true →
          r.year.isna = false) ∧
        satisfiesLowerBound cfg.LAT_MIN r.decimalLatitude = true ∧
        satisfiesUpperBound cfg.LAT_MAX r.decimalLatitude = true ∧
        satisfiesLowerBound cfg.LON_MIN r.decimalLongitude = true ∧
        satisfiesUpperBound cfg.LON_MAX r.decimalLongitude = true ∧
        satisfiesLowerBound cfg.YEAR_MIN r.year = true ∧
        satisfiesUpperBound cfg.YEAR_MAX r.year = true) ∧
    (filterChunk cfg' rows).length ≤ (filterChunk cfg rows).length := by
  constructor
  · intro r
    rw [mem_filterChunk_iff]
    constructor
    · rintro ⟨r0, h1, h2, h3, hy, hm⟩
      obtain ⟨c1, c2, c3, c4, c5, c6, c7, c8, c9⟩ :=
        (surviving_row_iff cfg r).mp ⟨hy, hm⟩
      exact ⟨r0, h1, h2, h3, c1, c2, c3, c4, c5, c6, c7, c8, c9⟩
    · rintro ⟨r0, h1, h2, h3, c1, c2, c3, c4, c5, c6, c7, c8, c9⟩
      obtain ⟨hy, hm⟩ :=
        (surviving_row_iff cfg r).mpr ⟨c1, c2, c3, c4, c5, c6, c7, c8, c9⟩
      exact ⟨r0, h1, h2, h3, hy, hm⟩
  · rw [filterChunk_eq_filter cfg, filterChunk_eq_filter cfg']
    exact (((dropnaCritical rows).map coerceNumericColumns).monotone_filter_right
      (fun r => maskPred_mono cfg' cfg r h)).length_le

/-- Witness for C1: a concrete tightened configuration pair and concrete
batch, with the hypothesis discharged by computation. -/
theorem quality_filter_iff_and_monotone_witness :
    tightens cfgNarrow cfgWide = true ∧
    (filterChunk cfgNarrow [rowA, rowB, rowC]).length ≤
      (filterChunk cfgWide [rowA, rowB, rowC]).length :=
  ⟨by decide,
    (quality_filter_iff_and_monotone cfgWide cfgNarrow [rowA, rowB, rowC]
      (by decide)).2⟩

/-- C2: in a three-row batch, row A (null uncertainty, allowed basis) passes
the filter, row B (uncertainty 1500) and row C (basis FOSSIL_SPECIMEN) fail,
and a FOSSIL_SPECIMEN row can never appear in any filtered output whatever
its other fields. -/
theorem batch_scenario_null_uncertainty :
    filterChunk defaultConfig [rowA, rowB, rowC] = [coerceNumericColumns rowA] ∧
    (∀ (rows : List OccurrenceRow) (r : OccurrenceRow),
      r.basisOfRecord = Cell.str "FOSSIL_SPECIMEN" →
        coerceNumericColumns r ∉ filterChunk defaultConfig rows) := by
  constructor
  · decide
  · intro rows r hb hmem
    have hm : rowMask defaultConfig (coerceNumericColumns r) = true :=
      List.of_mem_filter hmem
    rw [rowMask_eq] at hm
    simp only [Bool.and_eq_true] at hm
    have hbas := hm.1.1.1
    have hbc : (coerceNumericColumns r).basisOfRecord =
        Cell.str "FOSSIL_SPECIMEN" := by
      rw [← hb]
      rfl
    have hfalse : basisOfRecordMask (coerceNumericColumns r) = false := by
      unfold basisOfRecordMask
      rw [hbc]
      decide
    rw [hfalse] at hbas
    exact Bool.noConfusion hbas

/-- Witness for C2: the concrete FOSSIL_SPECIMEN row of the batch is indeed
excluded, via the theorem. -/
theorem batch_scenario_null_uncertainty_witness :
    coerceNumericColumns rowC ∉ filterChunk defaultConfig [rowA, rowB, rowC] :=
  batch_scenario_null_uncertainty.2 [rowA, rowB, rowC] rowC (by decide)

/-- C3 (divergence witness): with a single batch in which every row fails the
filters, the filtered table is empty, yet the unconditional per-chunk append
leaves `filtered_data` non-empty, so the output CSV branch is taken and the
`No data after filtering.` diagnostic branch is not — contradicting the
claimed (and self-documented) behaviour. -/
theorem no_survivors_output_divergence :
    filteredTable defaultConfig [[rowC]] = [] ∧
    writes_output_file defaultConfig [[rowC]] = true ∧
    prints_no_data_message defaultConfig [[rowC]] = false := by
  decide

lemma basis_nonnull_of_mem_filterChunk (cfg : FilterConfig)
    (rows : List OccurrenceRow) :
    ∀ r ∈ filterChunk cfg rows, r.basisOfRecord.isna = false := by
  intro r hr
  have hm : rowMask cfg r = true := List.of_mem_filter hr
  rw [rowMask_eq] at hm
  simp only [Bool.and_eq_true] at hm
  have hb := hm.1.1.1
  unfold basisOfRecordMask at hb
  cases hc : r.basisOfRecord with
  | null => simp [hc] at hb
  | num q => simp [hc] at hb
  | str s => rfl

lemma updateCounters_eq (st : CounterState) (fc : List OccurrenceRow) :
    updateCounters st fc =
      { species_counter := st.species_counter ++
          fc.map (fun r => r.scientificName)
        taxon_counter := st.taxon_counter ++ fc.map (fun r => r.taxonKey)
        country_counter := st.country_counter ++
          (fc.map (fun r => r.countryCode)).filter (fun c => !c.isna)
        basis_counter := st.basis_counter ++
          (fc.map (fun r => r.basisOfRecord)).filter (fun c => !c.isna)
        year_counter := st.year_counter ++
          (fc.map (fun r => r.year)).filter (fun c => !c.isna)
        filtered_records := st.filtered_records + fc.length } := by
  unfold updateCounters
  cases fc with
  | nil => simp
  | cons a l => rfl

lemma updateCounters_inv {st : CounterState} {tbl : List OccurrenceRow}
    (fc : List OccurrenceRow)
    (hfc : ∀ r ∈ fc, r.basisOfRecord.isna = false)
    (h : countersInv st tbl) :
    countersInv (updateCounters st fc) (tbl ++ fc) := by
  obtain ⟨h1, h2, h3, h4, h5, h6, h7⟩ := h
  rw [updateCounters_eq]
  have hbasis : (fc.map (fun r => r.basisOfRecord)).filter (fun c => !c.isna) =
      fc.map (fun r => r.basisOfRecord) := by
    apply List.filter_eq_self.mpr
    intro c hc
    rw [List.mem_map] at hc
    obtain ⟨r, hr, rfl⟩ := hc
    simp [hfc r hr]
  refine ⟨?_, ?_, ?_, ?_, ?_, ?_, ?_⟩
  · show (st.basis_counter ++ _).length = st.filtered_records + fc.length
    rw [hbasis, List.length_append, List.length_map, h1]
  · show st.filtered_records + fc.length = (tbl ++ fc).length
    rw [List.length_append, h2]
  · show st.species_counter ++ _ ⊆ _
    rw [List.map_append]
    exact List.append_subset.mpr
      ⟨h3.trans (List.subset_append_left _ _), List.subset_append_right _ _⟩
  · show st.taxon_counter ++ _ ⊆ _
    rw [List.map_append]
    exact List.append_subset.mpr
      ⟨h4.trans (List.subset_append_left _ _), List.subset_append_right _ _⟩
  · show st.country_counter ++ _ ⊆ _
    rw [List.map_append]
    intro x hx
    rcases List.mem_append.mp hx with hx | hx
    · exact List.mem_append_left _ (h5 hx)
    · exact List.mem_append_right _ (List.mem_of_mem_filter hx)
  · show st.basis_counter ++ _ ⊆ _
    rw [List.map_append]
    intro x hx
    rcases List.mem_append.mp hx with hx | hx
    · exact List.mem_append_left _ (h6 hx)
    · exact List.mem_append_right _ (List.mem_of_mem_filter hx)
  · show st.year_counter ++ _ ⊆ _
    rw [List.map_append]
    intro x hx
    rcases List.mem_append.mp hx with hx | hx
    · exact List.mem_append_left _ (h7 hx)
    · exact List.mem_append_right _ (List.mem_of_mem_filter hx)

lemma runFilterStage_inv (cfg : FilterConfig)
    (chunks : List (List OccurrenceRow)) :
    ∀ (st : CounterState) (data : List (List OccurrenceRow)),
      countersInv st data.flatten →
      countersInv (chunks.foldl (stageStep cfg) (st, data)).1
        ((chunks.foldl (stageStep cfg) (st, data)).2.flatten) := by
  induction chunks with
  | nil => intro st data h; exact h
  | cons c cs ih =>
    intro st data h
    simp only [List.foldl_cons]
    apply ih
    show countersInv (updateCounters st (filterChunk cfg c))
      ((data ++ [filterChunk cfg c]).flatten)
    have hflat : (data ++ [filterChunk cfg c]).flatten =
        data.flatten ++ filterChunk cfg c := by simp
    rw [hflat]
    exact updateCounters_inv _ (basis_nonnull_of_mem_filterChunk cfg c) h

/-- C4: after processing every batch, the sum of the basis-of-record
counter's values equals the filtered record count (which is the filtered
table's length), and every per-field counter's key set is a subset of the
filtered table's distinct values for that field — counters reflect only rows
that survived all predicates. -/
theorem counter_consistency (cfg : FilterConfig)
    (chunks : List (List OccurrenceRow)) :
    (((runFilterStage cfg chunks).1.basis_counter.dedup.map
        (fun k => (runFilterStage cfg chunks).1.basis_counter.count k)).sum =
      (runFilterStage cfg chunks).1.filtered_records) ∧
    (runFilterStage cfg chunks).1.filtered_records =
      (filteredTable cfg chunks).length ∧
    (runFilterStage cfg chunks).1.species_counter.dedup ⊆
      ((filteredTable cfg chunks).map (fun r => r.scientificName)).dedup ∧
    (runFilterStage cfg chunks).1.taxon_counter.dedup ⊆
      ((filteredTable cfg chunks).map (fun r => r.taxonKey)).dedup ∧
    (runFilterStage cfg chunks).1.country_counter.dedup ⊆
      ((filteredTable cfg chunks).map (fun r => r.countryCode)).dedup ∧
    (runFilterStage cfg chunks).1.basis_counter.dedup ⊆
      ((filteredTable cfg chunks).map (fun r => r.basisOfRecord)).dedup ∧
    (runFilterStage cfg chunks).1.year_counter.dedup ⊆
      ((filteredTable cfg chunks).map (fun r => r.year)).dedup := by
  have hinv := runFilterStage_inv cfg chunks initialCounters []
    ⟨rfl, rfl, List.nil_subset _, List.nil_subset _, List.nil_subset _,
      List.nil_subset _, List.nil_subset _⟩
  obtain ⟨h1, h2, h3, h4, h5, h6, h7⟩ := hinv
  have hd : ∀ (l₁ l₂ : List Cell), l₁ ⊆ l₂ → l₁.dedup ⊆ l₂.dedup := by
    intro l₁ l₂ h x hx
    exact List.mem_dedup.mpr (h (List.mem_dedup.mp hx))
  exact ⟨by rw [List.sum_map_count_dedup_eq_length]; exact h1, h2,
    hd _ _ h3, hd _ _ h4, hd _ _ h5, hd _ _ h6, hd _ _ h7⟩

lemma series_min_cons (x : ℤ) (l : List ℤ) :
    series_min (x :: l) =
      match series_min l with
      | none => some x
      | some m => some (min x m) := rfl

lemma series_max_cons (x : ℤ) (l : List ℤ) :
    series_max (x :: l) =
      match series_max l with
      | none => some x
      | some m => some (max x m) := rfl

lemma series_min_isSome (l : List ℤ) (h : l ≠ []) :
    ∃ m, series_min l = some m := by
  cases l with
  | nil => exact absurd rfl h
  | cons x xs =>
    rw [series_min_cons]
    cases series_min xs with
    | none => exact ⟨x, rfl⟩
    | some m => exact ⟨min x m, rfl⟩

lemma series_max_isSome (l : List ℤ) (h : l ≠ []) :
    ∃ M, series_max l = some M := by
  cases l with
  | nil => exact absurd rfl h
  | cons x xs =>
    rw [series_max_cons]
    cases series_max xs with
    | none => exact ⟨x, rfl⟩
    | some m => exact ⟨max x m, rfl⟩

lemma series_min_eq_none (l : List ℤ) (h : series_min l = none) : l = [] := by
  cases l with
  | nil => rfl
  | cons x xs =>
    rw [series_min_cons] at h
    cases hsm : series_min xs <;> rw [hsm] at h <;> exact Option.noConfusion h

lemma series_max_eq_none (l : List ℤ) (h : series_max l = none) : l = [] := by
  cases l with
  | nil => rfl
  | cons x xs =>
    rw [series_max_cons] at h
    cases hsm : series_max xs <;> rw [hsm] at h <;> exact Option.noConfusion h

lemma series_min_spec (l : List ℤ) :
    ∀ m, series_min l = some m → m ∈ l ∧ ∀ x ∈ l, m ≤ x := by
  induction l with
  | nil => intro m hm; exact Option.noConfusion hm
  | cons a t ih =>
    intro m hm
    rw [series_min_cons] at hm
    cases ht : series_min t with
    | none =>
      rw [ht] at hm
      obtain rfl : a = m := Option.some.inj hm
      have htnil : t = [] := series_min_eq_none t ht
      subst htnil
      exact ⟨List.mem_singleton_self a, by
        intro x hx
        rw [List.mem_singleton] at hx
        exact le_of_eq hx.symm⟩
    | some m' =>
      rw [ht] at hm
      obtain rfl : min a m' = m := Option.some.inj hm
      obtain ⟨hmem, hle⟩ := ih m' ht
      constructor
      · rcases le_total a m' with hc | hc
        · rw [min_eq_left hc]; exact List.mem_cons_self a t
        · rw [min_eq_right hc]; exact List.mem_cons_of_mem a hmem
      · intro x hx
        rcases List.mem_cons.mp hx with rfl | hx
        · exact min_le_left _ _
        · exact le_trans (min_le_right _ _) (hle x hx)

lemma series_max_spec (l : List ℤ) :
    ∀ M, series_max l = some M → M ∈ l ∧ ∀ x ∈ l, x ≤ M := by
  induction l with
  | nil => intro M hM; exact Option.noConfusion hM
  | cons a t ih =>
    intro M hM
    rw [series_max_cons] at hM
    cases ht : series_max t with
    | none =>
      rw [ht] at hM
      obtain rfl : a = M := Option.some.inj hM
      have htnil : t = [] := series_max_eq_none t ht
      subst htnil
      exact ⟨List.mem_singleton_self a, by
        intro x hx
        rw [List.mem_singleton] at hx
        exact le_of_eq hx⟩
    | some m' =>
      rw [ht] at hM
      obtain rfl : max a m' = M := Option.some.inj hM
      obtain ⟨hmem, hle⟩ := ih m' ht
      constructor
      · rcases le_total a m' with hc | hc
        · rw [max_eq_right hc]; exact List.mem_cons_of_mem a hmem
        · rw [max_eq_left hc]; exact List.mem_cons_self a t
      · intro x hx
        rcases List.mem_cons.mp hx with rfl | hx
        · exact le_max_left _ _
        · exact le_trans (hle x hx) (le_max_right _ _)

lemma years_stats (l : List ℤ) (h : l ≠ []) :
    ∃ m M, series_min l = some m ∧ series_max l = some M ∧ m ≤ M ∧
      1 ≤ l.dedup.length ∧ (l.dedup.length : ℤ) ≤ M - m + 1 := by
  obtain ⟨m, hm⟩ := series_min_isSome l h
  obtain ⟨M, hM⟩ := series_max_isSome l h
  obtain ⟨hmmem, hlb⟩ := series_min_spec l m hm
  obtain ⟨hMmem, hub⟩ := series_max_spec l M hM
  have hmM : m ≤ M := hub m hmmem
  refine ⟨m, M, hm, hM, hmM, ?_, ?_⟩
  · have hne : l.dedup ≠ [] := by
      simpa [List.dedup_eq_nil] using h
    exact List.length_pos.mpr hne
  · have hnodup : l.dedup.Nodup := List.nodup_dedup l
    have hsub : l.dedup.toFinset ⊆ Finset.Icc m M := by
      intro x hx
      rw [List.mem_toFinset, List.mem_dedup] at hx
      exact Finset.mem_Icc.mpr ⟨hlb x hx, hub x hx⟩
    have hcard : l.dedup.toFinset.card = l.dedup.length :=
      List.toFinset_card_of_nodup hnodup
    have hle := Finset.card_le_card hsub
    rw [hcard, Int.card_Icc] at hle
    have h2 : (l.dedup.length : ℤ) ≤ ((M + 1 - m).toNat : ℤ) := by
      exact_mod_cast hle
    rw [Int.toNat_of_nonneg (by linarith)] at h2
    linarith

/-- C5: a taxon group observed in exactly one distinct year has
`temporal_span = 0`, the general division evaluates to null (never to a
numeric 1/1), and the forced assignment makes `temporal_completeness`
exactly 1. -/
theorem single_year_taxon_completeness (df : List JoinedOccurrence) (k : ℤ)
    (h : n_years (taxonGroup df k) = 1) :
    temporal_span (taxonGroup df k) = some 0 ∧
    temporal_completeness_general (taxonGroup df k) = none ∧
    temporal_completeness (taxonGroup df k) = some 1 := by
  obtain ⟨y, hy⟩ := List.length_eq_one.mp h
  have hall : ∀ x ∈ groupYears (taxonGroup df k), x = y := by
    intro x hx
    have hxd : x ∈ (groupYears (taxonGroup df k)).dedup := List.mem_dedup.mpr hx
    rw [hy] at hxd
    simpa using hxd
  have hne : groupYears (taxonGroup df k) ≠ [] := by
    intro hnil
    rw [hnil] at hy
    simp at hy
  obtain ⟨m, hm⟩ := series_min_isSome _ hne
  obtain ⟨M, hM⟩ := series_max_isSome _ hne
  have hmy : m = y := hall m (series_min_spec _ m hm).1
  have hMy : M = y := hall M (series_max_spec _ M hM).1
  have hspan : temporal_span (taxonGroup df k) = some 0 := by
    unfold temporal_span year_max_agg year_min_agg
    rw [hm, hM, hmy, hMy]
    simp
  refine ⟨hspan, ?_, ?_⟩
  · unfold temporal_completeness_general span_replaced
    rw [if_pos hspan]
    rfl
  · unfold temporal_completeness
    rw [if_pos hspan]

/-- Witness for C5: taxon 7 of a concrete joined table is observed twice in
the single year 2000. -/
theorem single_year_taxon_completeness_witness :
    temporal_span (taxonGroup [jrowA, jrowB, jrowC, jrowD, jrowNone] 7) = some 0 ∧
    temporal_completeness_general
      (taxonGroup [jrowA, jrowB, jrowC, jrowD, jrowNone] 7) = none ∧
    temporal_completeness
      (taxonGroup [jrowA, jrowB, jrowC, jrowD, jrowNone] 7) = some 1 :=
  single_year_taxon_completeness [jrowA, jrowB, jrowC, jrowD, jrowNone] 7
    (by decide)

/-- C10: for every taxon group with year data, the distinct-year count never
exceeds `temporal_span + 1`, so `temporal_completeness` lies in (0, 1] even
though the code never clamps it. -/
theorem species_completeness_bounds (df : List JoinedOccurrence) (k : ℤ)
    (h : groupYears (taxonGroup df k) ≠ []) :
    (∃ s, temporal_span (taxonGroup df k) = some s ∧ 0 ≤ s ∧
      (n_years (taxonGroup df k) : ℤ) ≤ s + 1) ∧
    (∃ c, temporal_completeness (taxonGroup df k) = some c ∧ 0 < c ∧ c ≤ 1) := by
  obtain ⟨m, M, hm, hM, hmM, hn1, hnle⟩ := years_stats (groupYears (taxonGroup df k)) h
  have hspan : temporal_span (taxonGroup df k) = some (M - m) := by
    unfold temporal_span year_max_agg year_min_agg
    rw [hm, hM]
  have hnle' : (n_years (taxonGroup df k) : ℤ) ≤ (M - m) + 1 := by
    simpa [n_years] using hnle
  have hn1' : 1 ≤ n_years (taxonGroup df k) := by
    simpa [n_years] using hn1
  refine ⟨⟨M - m, hspan, by linarith, hnle'⟩, ?_⟩
  by_cases h0 : temporal_span (taxonGroup df k) = some 0
  · refine ⟨1, ?_, one_pos, le_refl 1⟩
    unfold temporal_completeness
    rw [if_pos h0]
  · have hMm : M - m ≠ 0 := by
      intro hc
      exact h0 (by rw [hspan, hc])
    have hpos : 0 < M - m := lt_of_le_of_ne (by linarith) (Ne.symm hMm)
    have hrepl : span_replaced (taxonGroup df k) = some (M - m) := by
      unfold span_replaced
      rw [if_neg h0, hspan]
    have hgen : temporal_completeness_general (taxonGroup df k) =
        some ((n_years (taxonGroup df k) : ℚ) / (((M - m : ℤ) : ℚ) + 1)) := by
      unfold temporal_completeness_general
      rw [hrepl]
      rfl
    have hge1 : (1 : ℤ) ≤ M - m := hpos
    have hden : (0 : ℚ) < ((M - m : ℤ) : ℚ) + 1 := by
      have : (1 : ℚ) ≤ ((M - m : ℤ) : ℚ) := by exact_mod_cast hge1
      linarith
    refine ⟨(n_years (taxonGroup df k) : ℚ) / (((M - m : ℤ) : ℚ) + 1), ?_, ?_, ?_⟩
    · unfold temporal_completeness
      rw [if_neg h0, hgen]
    · apply div_pos _ hden
      exact_mod_cast hn1'
    · rw [div_le_one hden]
      have : ((n_years (taxonGroup df k) : ℤ) : ℚ) ≤ ((M - m + 1 : ℤ) : ℚ) := by
        exact_mod_cast hnle'
      push_cast at this ⊢
      linarith

/-- Witness for C10: taxon 8 of the concrete joined table (years 2001 and
2003). -/
theorem species_completeness_bounds_witness :
    (∃ s, temporal_span (taxonGroup [jrowA, jrowB, jrowC, jrowD, jrowNone] 8) =
        some s ∧ 0 ≤ s ∧
      (n_years (taxonGroup [jrowA, jrowB, jrowC, jrowD, jrowNone] 8) : ℤ) ≤ s + 1) ∧
    (∃ c, temporal_completeness
        (taxonGroup [jrowA, jrowB, jrowC, jrowD, jrowNone] 8) = some c ∧
      0 < c ∧ c ≤ 1) :=
  species_completeness_bounds [jrowA, jrowB, jrowC, jrowD, jrowNone] 8 (by decide)

/-- C6: for every site group with at least one year of data, the gap fraction
exists, lies in [0, 1], and is zero exactly when there are no missing years. -/
theorem gap_fraction_bounds (df : List JoinedOccurrence) (s : String)
    (h : groupYears (siteGroup df s) ≠ []) :
    ∃ gf, gap_fraction (siteGroup df s) = some gf ∧ 0 ≤ gf ∧ gf ≤ 1 ∧
      (gf = 0 ↔ missing_years (siteGroup df s) = some 0) := by
  obtain ⟨m, M, hm, hM, hmM, hn1, hnle⟩ := years_stats (groupYears (siteGroup df s)) h
  have hexp : expected_years (siteGroup df s) = some (M - m + 1) := by
    unfold expected_years year_max_agg year_min_agg
    rw [hm, hM]
  have hmiss : missing_years (siteGroup df s) =
      some (M - m + 1 - (n_years (siteGroup df s) : ℤ)) := by
    unfold missing_years
    rw [hexp]
  have hnle' : (n_years (siteGroup df s) : ℤ) ≤ M - m + 1 := by
    simpa [n_years] using hnle
  have hn1' : 1 ≤ n_years (siteGroup df s) := by
    simpa [n_years] using hn1
  have hepos : (0 : ℤ) < M - m + 1 := by linarith
  have hmi0 : (0 : ℤ) ≤ M - m + 1 - (n_years (siteGroup df s) : ℤ) := by linarith
  have hmile : M - m + 1 - (n_years (siteGroup df s) : ℤ) ≤ M - m + 1 := by
    have : (0 : ℤ) ≤ (n_years (siteGroup df s) : ℤ) := Int.ofNat_nonneg _
    linarith
  have hfrac : gap_fraction (siteGroup df s) =
      some (min 1 (max 0
        (((M - m + 1 - (n_years (siteGroup df s) : ℤ) : ℤ) : ℚ) /
          ((M - m + 1 : ℤ) : ℚ)))) := by
    unfold gap_fraction
    rw [hmiss, hexp]
  have heQ : (0 : ℚ) < ((M - m + 1 : ℤ) : ℚ) := by exact_mod_cast hepos
  have hq0 : 0 ≤ ((M - m + 1 - (n_years (siteGroup df s) : ℤ) : ℤ) : ℚ) /
      ((M - m + 1 : ℤ) : ℚ) :=
    div_nonneg (by exact_mod_cast hmi0) (le_of_lt heQ)
  have hq1 : ((M - m + 1 - (n_years (siteGroup df s) : ℤ) : ℤ) : ℚ) /
      ((M - m + 1 : ℤ) : ℚ) ≤ 1 := by
    rw [div_le_one heQ]
    exact_mod_cast hmile
  have hclip : min 1 (max 0
      (((M - m + 1 - (n_years (siteGroup df s) : ℤ) : ℤ) : ℚ) /
        ((M - m + 1 : ℤ) : ℚ))) =
      ((M - m + 1 - (n_years (siteGroup df s) : ℤ) : ℤ) : ℚ) /
        ((M - m + 1 : ℤ) : ℚ) := by
    rw [max_eq_right hq0, min_eq_right hq1]
  refine ⟨_, by rw [hfrac, hclip], hq0, hq1, ?_⟩
  constructor
  · intro h0
    rw [hmiss]
    have hnum : ((M - m + 1 - (n_years (siteGroup df s) : ℤ) : ℤ) : ℚ) = 0 := by
      rcases (div_eq_zero_iff.mp h0) with hc | hc
      · exact hc
      · exact absurd hc (ne_of_gt heQ)
    have : (M - m + 1 - (n_years (siteGroup df s) : ℤ)) = 0 := by
      exact_mod_cast hnum
    rw [this]
  · intro h0
    rw [hmiss] at h0
    have hz : M - m + 1 - (n_years (siteGroup df s) : ℤ) = 0 := Option.some.inj h0
    rw [hz]
    simp

/-- Witness for C6: site GR1 of the concrete joined table (years 2000, 2001
and 2003). -/
theorem gap_fraction_bounds_witness :
    ∃ gf, gap_fraction (siteGroup [jrowA, jrowB, jrowC, jrowD, jrowNone] "GR1") =
        some gf ∧ 0 ≤ gf ∧ gf ≤ 1 ∧
      (gf = 0 ↔
        missing_years (siteGroup [jrowA, jrowB, jrowC, jrowD, jrowNone] "GR1") =
          some 0) :=
  gap_fraction_bounds [jrowA, jrowB, jrowC, jrowD, jrowNone] "GR1" (by decide)

lemma sjoin_left_cons (within : OccurrenceRow → NaturaSite → Bool)
    (q : OccurrenceRow) (ps : List OccurrenceRow) (sites : List NaturaSite) :
    sjoin_left within (q :: ps) sites =
      (if (sites.filter (fun s => within q s)).isEmpty then [(q, none)]
       else (sites.filter (fun s => within q s)).map fun t => (q, some t)) ++
        sjoin_left within ps sites := by
  simp [sjoin_left]

lemma sjoin_countP_block (within : OccurrenceRow → NaturaSite → Bool)
    (q p : OccurrenceRow) (sites : List NaturaSite) :
    ((if (sites.filter (fun s => within q s)).isEmpty then
        [(q, (none : Option NaturaSite))]
      else (sites.filter (fun s => within q s)).map fun t => (q, some t)).countP
        (fun e => decide (e.1 = p))) =
      if q = p then
        max 1 (sites.filter (fun s => within p s)).length
      else 0 := by
  by_cases hqp : q = p
  · subst hqp
    rw [if_pos rfl]
    cases hf : sites.filter (fun s => within q s) with
    | nil =>
      simp
    | cons s ss =>
      simp only [List.isEmpty_cons, Bool.false_eq_true, if_false]
      rw [List.countP_eq_length.mpr ?_, List.length_map]
      · simp [Nat.max_eq_right (Nat.succ_le_succ (Nat.zero_le _))]
      · intro e he
        obtain ⟨t, _, rfl⟩ := List.mem_map.mp he
        simp
  · rw [if_neg hqp]
    apply List.countP_eq_zero.mpr
    intro e he
    by_cases hf : (sites.filter (fun s => within q s)).isEmpty = true
    · rw [if_pos hf] at he
      rw [List.mem_singleton] at he
      subst he
      simp [hqp]
    · rw [if_neg hf] at he
      obtain ⟨t, _, rfl⟩ := List.mem_map.mp he
      simp [hqp]

/-- C7: the spatial enrichment is a left join on strict containment: every
occurrence point is retained at least once; the number of output rows whose
occurrence equals `p` is the number of copies of `p` times the number of
containing polygons (or one when there is none); a null-site output row
exists exactly for points contained in no polygon; and every non-null output
row records an actual containment. -/
theorem sjoin_left_cardinality
    (within : OccurrenceRow → NaturaSite → Bool)
    (gdf_points : List OccurrenceRow) (gdf_natura_join : List NaturaSite) :
    (∀ p ∈ gdf_points, ∃ m,
      (p, m) ∈ sjoin_left within gdf_points gdf_natura_join) ∧
    (∀ p, (sjoin_left within gdf_points gdf_natura_join).countP
        (fun e => decide (e.1 = p)) =
      gdf_points.count p *
        max 1 (gdf_natura_join.filter (fun t => within p t)).length) ∧
    (∀ p, ((p, (none : Option NaturaSite)) ∈
        sjoin_left within gdf_points gdf_natura_join ↔
      (p ∈ gdf_points ∧
        gdf_natura_join.filter (fun t => within p t) = []))) ∧
    (∀ p t, (p, some t) ∈ sjoin_left within gdf_points gdf_natura_join →
      within p t = true) := by
  refine ⟨?_, ?_, ?_, ?_⟩
  · intro p hp
    by_cases hf : (gdf_natura_join.filter (fun s => within p s)).isEmpty = true
    · refine ⟨none, List.mem_flatMap.mpr ⟨p, hp, ?_⟩⟩
      rw [if_pos hf]
      exact List.mem_singleton_self _
    · obtain ⟨s, ss, hcons⟩ : ∃ s ss,
          gdf_natura_join.filter (fun t => within p t) = s :: ss := by
        cases hc : gdf_natura_join.filter (fun t => within p t) with
        | nil => rw [hc] at hf; exact absurd rfl hf
        | cons a l => exact ⟨a, l, rfl⟩
      refine ⟨some s, List.mem_flatMap.mpr ⟨p, hp, ?_⟩⟩
      rw [if_neg hf, hcons]
      exact List.mem_map.mpr ⟨s, List.mem_cons_self _ _, rfl⟩
  · intro p
    induction gdf_points with
    | nil => simp [sjoin_left]
    | cons q ps ih =>
      rw [sjoin_left_cons, List.countP_append, sjoin_countP_block, ih,
        List.count_cons]
      by_cases hqp : q = p
      · simp only [hqp, if_pos rfl, beq_self_eq_true, if_true]
        ring
      · have hbeq : (q == p) = false := by simp [hqp]
        simp [hqp, hbeq]
  · intro p
    constructor
    · intro hmem
      obtain ⟨q, hq, hin⟩ := List.mem_flatMap.mp hmem
      by_cases hf : (gdf_natura_join.filter (fun s => within q s)).isEmpty = true
      · rw [if_pos hf] at hin
        rw [List.mem_singleton] at hin
        injection hin with h1 h2
        subst h1
        exact ⟨hq, List.isEmpty_iff.mp hf⟩
      · rw [if_neg hf] at hin
        obtain ⟨t, _, he⟩ := List.mem_map.mp hin
        injection he with h1 h2
        exact Option.noConfusion h2
    · rintro ⟨hp, hf⟩
      refine List.mem_flatMap.mpr ⟨p, hp, ?_⟩
      rw [if_pos (by rw [hf]; rfl)]
      exact List.mem_singleton_self _
  · intro p t hmem
    obtain ⟨q, hq, hin⟩ := List.mem_flatMap.mp hmem
    by_cases hf : (gdf_natura_join.filter (fun s => within q s)).isEmpty = true
    · rw [if_pos hf] at hin
      rw [List.mem_singleton] at hin
      injection hin with h1 h2
      exact Option.noConfusion h2
    · rw [if_neg hf] at hin
      obtain ⟨u, hu, he⟩ := List.mem_map.mp hin
      injection he with h1 h2
      obtain rfl : u = t := Option.some.inj h2
      subst h1
      exact List.of_mem_filter hu

/-- Witness for C7: a concrete join of two points against two sites, where
the first point lies inside both sites and the second in none. -/
theorem sjoin_left_cardinality_witness :
    (∃ m, (rowA, m) ∈ sjoin_left withinDemo [rowA, rowOutside] [siteX, siteY]) ∧
    ((sjoin_left withinDemo [rowA, rowOutside] [siteX, siteY]).countP
        (fun e => decide (e.1 = rowA)) =
      [rowA, rowOutside].count rowA *
        max 1 ([siteX, siteY].filter (fun t => withinDemo rowA t)).length) ∧
    [siteX, siteY].filter (fun t => withinDemo rowOutside t) = [] :=
  ⟨(sjoin_left_cardinality withinDemo [rowA, rowOutside] [siteX, siteY]).1
      rowA (by decide),
    (sjoin_left_cardinality withinDemo [rowA, rowOutside] [siteX, siteY]).2.1
      rowA,
    (((sjoin_left_cardinality withinDemo [rowA, rowOutside]
        [siteX, siteY]).2.2.1 rowOutside).mp (by decide)).2⟩

/-- C8: the taxon-key derivation prefers `acceptedUsageKey`, falls back to
`usageKey` when it is null, drops non-numeric or missing keys, and collapses
duplicates; the claimed two-row species list yields exactly the keys
10 and 99. -/
theorem usage_keys_scenario :
    usage_keys [⟨Cell.num 10, Cell.null⟩, ⟨Cell.num 20, Cell.num 99⟩] =
      [10, 99] ∧
    usage_keys [⟨Cell.str "abc", Cell.null⟩, ⟨Cell.null, Cell.null⟩] = [] ∧
    usage_keys [⟨Cell.num 5, Cell.null⟩, ⟨Cell.null, Cell.num 5⟩,
      ⟨Cell.num 7, Cell.null⟩] = [5, 7] := by
  decide

/-- C9: both metrics components restrict their input to the rows carrying a
non-null site code, and when zero rows carry one, each component terminates
with exit status 0 having produced no metric outputs. -/
theorem empty_site_metrics_run (df : List JoinedOccurrence)
    (h : ∀ r ∈ df, r.SITECODE = none) :
    (∀ r ∈ df_in_site df, r.SITECODE ≠ none) ∧
    basic_metrics_run df = (0, []) ∧
    advanced_metrics_run df = (0, []) := by
  have hempty : df_in_site df = [] := by
    apply List.filter_eq_nil_iff.mpr
    intro r hr
    simp [h r hr]
  refine ⟨?_, ?_, ?_⟩
  · intro r hr hc
    have hs := List.of_mem_filter hr
    rw [hc] at hs
    exact Bool.noConfusion hs
  · unfold basic_metrics_run
    rw [hempty]
    rfl
  · unfold advanced_metrics_run
    rw [hempty]
    rfl

/-- Witness for C9: a one-row table whose single occurrence has a null site
code. -/
theorem empty_site_metrics_run_witness :
    basic_metrics_run [jrowNone] = (0, []) ∧
    advanced_metrics_run [jrowNone] = (0, []) :=
  ⟨(empty_site_metrics_run [jrowNone] (by decide)).2.1,
    (empty_site_metrics_run [jrowNone] (by decide)).2.2⟩
